import Mathlib

/-!
Shallow embedding of `src/mysuspend.c` (an Android power-management example
kernel module).  Each C function is translated into a Lean function that
returns the list of host-facility calls it performs, in program order.
The host kernel facilities (timers, workqueues, android alarms, notifier
chains, wake locks, printk) are external collaborators: their calls appear
as constructors of `Call`, and where a claim depends on their semantics
(synchronous cancellation), that semantics is modelled from the spec in a
clearly marked definition.
-/

namespace Mysuspend

/-- `MSEC_PER_SEC` from the kernel headers. -/
def MSEC_PER_SEC : Nat := 1000

/-- `NSEC_PER_MSEC` from the kernel headers. -/
def NSEC_PER_MSEC : Nat := 1000000

/-- `#define WORK_PERIOD_MS (1ULL * MSEC_PER_SEC)` (line 49). -/
def WORK_PERIOD_MS : Nat := 1 * MSEC_PER_SEC

/-- `#define TIMER_PERIOD_MS (1ULL * MSEC_PER_SEC)` (line 81). -/
def TIMER_PERIOD_MS : Nat := 1 * MSEC_PER_SEC

/-- `#define ALARM_PERIOD_MS (10ULL * MSEC_PER_SEC)` (line 114). -/
def ALARM_PERIOD_MS : Nat := 10 * MSEC_PER_SEC

/-- `PM_HIBERNATION_PREPARE` from `linux/suspend.h`. -/
def PM_HIBERNATION_PREPARE : Nat := 1

/-- `PM_POST_HIBERNATION` from `linux/suspend.h`. -/
def PM_POST_HIBERNATION : Nat := 2

/-- `PM_SUSPEND_PREPARE` from `linux/suspend.h`. -/
def PM_SUSPEND_PREPARE : Nat := 3

/-- `PM_POST_SUSPEND` from `linux/suspend.h`. -/
def PM_POST_SUSPEND : Nat := 4

/-- `NOTIFY_DONE` from `linux/notifier.h`: "don't care". -/
def NOTIFY_DONE : Nat := 0

/-- `NOTIFY_OK` from `linux/notifier.h`: "suits me". -/
def NOTIFY_OK : Nat := 1

/-- `NOTIFY_BAD` from `linux/notifier.h`: `NOTIFY_STOP_MASK | 2`, the error
acknowledgement. -/
def NOTIFY_BAD : Nat := 0x8000 + 2

/-- `EARLY_SUSPEND_LEVEL_DISABLE_FB` from `linux/earlysuspend.h`. -/
def EARLY_SUSPEND_LEVEL_DISABLE_FB : Nat := 150

/-- The three periodic activities of the module, distinguished by the host
facility that backs them. -/
inductive ActivityKind
  | timer
  | deferredWork
  | alarm
deriving DecidableEq, Repr

/-- One call made by the module into a host kernel facility, with the
arguments the C code passes (delays carried in ms, the alarm one in ns,
matching the units at the call site).  `printkTs` is the `MY_DBG("%s: %lu",
__func__, get_my_seconds())` form; `printk` the plain-string form. -/
inductive Call
  | wakeLockInit (name : String)
  | wakeLock
  | wakeUnlock
  | wakeLockDestroy
  | registerPmNotifier
  | unregisterPmNotifier
  | registerEarlySuspend (level : Nat)
  | unregisterEarlySuspend
  | scheduleDelayedWork (delayMs : Nat)
  | cancelDelayedWorkSync
  | modTimer (delayMs : Nat)
  | delTimerSync
  | alarmInit
  | alarmStartRange (delayNs : Nat)
  | alarmCancel
  | printk (msg : String)
  | printkTs (tag : String) (sec : Nat)
deriving DecidableEq, Repr

/-- `get_my_seconds` (lines 37-43): returns `getnstimeofday().tv_sec`.  The
RTC is external; the current wall-clock second is passed in. -/
def get_my_seconds (rtc_sec : Nat) : Nat := rtc_sec

/-- Host-produced return values that the C code receives and discards.
`register_pm_notifier` returns an `int` (0 on success, negative errno on
failure); `my_pm_notifier_start` is `void` and drops it. -/
structure HostEnv where
  pm_register_ret : Int
deriving DecidableEq, Repr

/-- `my_delayed_work_start` (lines 55-59): `schedule_delayed_work(&my_delayed_work,
msecs_to_jiffies(WORK_PERIOD_MS))`; the returned `bool` is discarded. -/
def my_delayed_work_start : List Call :=
  [Call.scheduleDelayedWork WORK_PERIOD_MS]

/-- `my_delayed_work_stop` (lines 61-64): `cancel_delayed_work_sync(&my_delayed_work)`. -/
def my_delayed_work_stop : List Call :=
  [Call.cancelDelayedWorkSync]

/-- `my_delayed_work_handler` (lines 66-70): log the function name and the
current seconds, then re-arm via `my_delayed_work_start()`. -/
def my_delayed_work_handler (sec : Nat) : List Call :=
  Call.printkTs "my_delayed_work_handler" (get_my_seconds sec) :: my_delayed_work_start

/-- `my_timer_start` (lines 87-90): `mod_timer(&my_timer, jiffies +
msecs_to_jiffies(TIMER_PERIOD_MS))`; the returned `int` is discarded. -/
def my_timer_start : List Call :=
  [Call.modTimer TIMER_PERIOD_MS]

/-- `my_timer_handler` (lines 92-96): log the function name and the current
seconds, then re-arm via `my_timer_start()`. -/
def my_timer_handler (sec : Nat) : List Call :=
  Call.printkTs "my_timer_handler" (get_my_seconds sec) :: my_timer_start

/-- `my_timer_stop` (lines 98-101): `del_timer_sync(&my_timer)`. -/
def my_timer_stop : List Call :=
  [Call.delTimerSync]

/-- `my_alarm_shot` (lines 118-127): arm the alarm at
`ktime_get_real() + ALARM_PERIOD_MS * NSEC_PER_MSEC` nanoseconds. -/
def my_alarm_shot : List Call :=
  [Call.alarmStartRange (ALARM_PERIOD_MS * NSEC_PER_MSEC)]

/-- `my_alarm_handler` (lines 129-133): log the function name and the current
seconds, then re-arm via `my_alarm_shot()`. -/
def my_alarm_handler (sec : Nat) : List Call :=
  Call.printkTs "my_alarm_handler" (get_my_seconds sec) :: my_alarm_shot

/-- `my_alarm_start` (lines 135-139): `alarm_init(&my_alarm,
ANDROID_ALARM_RTC_WAKEUP, my_alarm_handler)` then `my_alarm_shot()`. -/
def my_alarm_start : List Call :=
  Call.alarmInit :: my_alarm_shot

/-- `my_alarm_stop` (lines 141-144): `alarm_cancel(&my_alarm)`. -/
def my_alarm_stop : List Call :=
  [Call.alarmCancel]

/-- `my_pm_handler` (lines 155-170): switch on `action`; the
hibernation-prepare and suspend-prepare cases fall through to one branch,
the post-hibernation and post-suspend cases to another; everything else
reaches the trailing `return NOTIFY_DONE`.  The `nfb` and `data` parameters
appear only in the signature, exactly as in the C function.  Returns the
notifier acknowledgement paired with the log lines emitted. -/
def my_pm_handler (nfb : Nat) (action : Nat) (data : Nat) : Nat × List Call :=
  if action = PM_HIBERNATION_PREPARE ∨ action = PM_SUSPEND_PREPARE then
    (NOTIFY_OK, [Call.printk "my_pm_handler: suspend"])
  else if action = PM_POST_HIBERNATION ∨ action = PM_POST_SUSPEND then
    (NOTIFY_OK, [Call.printk "my_pm_handler: resume"])
  else
    (NOTIFY_DONE, [])

/-- `my_pm_notifier_start` (lines 176-179): `register_pm_notifier(&my_pm_notifier)`.
The host's `int` result is received and dropped (the C function is `void`). -/
def my_pm_notifier_start (env : HostEnv) : List Call :=
  let _r : Int := env.pm_register_ret
  [Call.registerPmNotifier]

/-- `my_pm_notifier_stop` (lines 181-184): `unregister_pm_notifier(&my_pm_notifier)`. -/
def my_pm_notifier_stop : List Call :=
  [Call.unregisterPmNotifier]

/-- `my_early_suspend_handler` (lines 195-198): logs its function name. -/
def my_early_suspend_handler : List Call :=
  [Call.printk "my_early_suspend_handler"]

/-- `my_early_resume_handler` (lines 200-203): logs its function name. -/
def my_early_resume_handler : List Call :=
  [Call.printk "my_early_resume_handler"]

/-- `my_early_suspend_start` (lines 233-236): `register_early_suspend` with
level `EARLY_SUSPEND_LEVEL_DISABLE_FB` (lines 227-231). -/
def my_early_suspend_start : List Call :=
  [Call.registerEarlySuspend EARLY_SUSPEND_LEVEL_DISABLE_FB]

/-- `my_early_suspend_stop` (lines 238-241): `unregister_early_suspend`. -/
def my_early_suspend_stop : List Call :=
  [Call.unregisterEarlySuspend]

/-- `my_wake_lock_start` (lines 256-260): `wake_lock_init(&my_wake_lock,
WAKE_LOCK_SUSPEND, "my_wake_lock")` then `wake_lock(&my_wake_lock)`. -/
def my_wake_lock_start : List Call :=
  [Call.wakeLockInit "my_wake_lock", Call.wakeLock]

/-- `my_wake_lock_stop` (lines 262-266): `wake_unlock(&my_wake_lock)` then
`wake_lock_destroy(&my_wake_lock)`. -/
def my_wake_lock_stop : List Call :=
  [Call.wakeUnlock, Call.wakeLockDestroy]

/-- `my_init` (lines 274-284): the six startup steps in program order, then
`return 0` unconditionally.  Result: the returned `int` paired with the call
trace. -/
def my_init (env : HostEnv) : Int × List Call :=
  (0, my_wake_lock_start ++ my_pm_notifier_start env ++ my_early_suspend_start ++
      my_delayed_work_start ++ my_timer_start ++ my_alarm_start)

/-- `my_exit` (lines 286-294): the six teardown steps in program order. -/
def my_exit : List Call :=
  my_alarm_stop ++ my_timer_stop ++ my_delayed_work_stop ++
  my_pm_notifier_stop ++ my_early_suspend_stop ++ my_wake_lock_stop

/-- The per-instance period constant used by each activity, in milliseconds. -/
def periodMs : ActivityKind → Nat
  | ActivityKind.timer => TIMER_PERIOD_MS
  | ActivityKind.deferredWork => WORK_PERIOD_MS
  | ActivityKind.alarm => ALARM_PERIOD_MS

/-- The start function backing each activity kind. -/
def startTrace : ActivityKind → List Call
  | ActivityKind.timer => my_timer_start
  | ActivityKind.deferredWork => my_delayed_work_start
  | ActivityKind.alarm => my_alarm_start

/-- The stop function backing each activity kind. -/
def stopTrace : ActivityKind → List Call
  | ActivityKind.timer => my_timer_stop
  | ActivityKind.deferredWork => my_delayed_work_stop
  | ActivityKind.alarm => my_alarm_stop

/-- The firing handler backing each activity kind, at wall-clock second `sec`. -/
def handlerTrace : ActivityKind → Nat → List Call
  | ActivityKind.timer, sec => my_timer_handler sec
  | ActivityKind.deferredWork, sec => my_delayed_work_handler sec
  | ActivityKind.alarm, sec => my_alarm_handler sec

/-- Is this call an arming (schedule-after-delay) request to a host facility? -/
def isArmCall : Call → Bool
  | Call.scheduleDelayedWork _ => true
  | Call.modTimer _ => true
  | Call.alarmStartRange _ => true
  | _ => false

/-- The delay, in milliseconds, an arming call asks the host for (`none` for
non-arming calls).  The alarm call carries nanoseconds at its call site. -/
def armDelayMs : Call → Option Nat
  | Call.scheduleDelayedWork d => some d
  | Call.modTimer d => some d
  | Call.alarmStartRange ns => some (ns / NSEC_PER_MSEC)
  | _ => none

/-- Is this call an operation on the wake lock? -/
def isWakeCall : Call → Bool
  | Call.wakeLockInit _ => true
  | Call.wakeLock => true
  | Call.wakeUnlock => true
  | Call.wakeLockDestroy => true
  | _ => false

/-- The lifecycle-relevant step a host call performs, abstracting away
arguments; informational calls (`wake_lock_init`, `alarm_init`, logging)
map to `none`. -/
inductive Step
  | wakeAcquire
  | pmRegister
  | earlyRegister
  | armWork
  | armTimer
  | armAlarm
  | stopAlarm
  | stopTimer
  | stopWork
  | pmUnregister
  | earlyUnregister
  | wakeRelease
deriving DecidableEq, Repr

/-- Classify one host call as a lifecycle step. -/
def stepOf : Call → Option Step
  | Call.wakeLock => some Step.wakeAcquire
  | Call.registerPmNotifier => some Step.pmRegister
  | Call.registerEarlySuspend _ => some Step.earlyRegister
  | Call.scheduleDelayedWork _ => some Step.armWork
  | Call.modTimer _ => some Step.armTimer
  | Call.alarmStartRange _ => some Step.armAlarm
  | Call.alarmCancel => some Step.stopAlarm
  | Call.delTimerSync => some Step.stopTimer
  | Call.cancelDelayedWorkSync => some Step.stopWork
  | Call.unregisterPmNotifier => some Step.pmUnregister
  | Call.unregisterEarlySuspend => some Step.earlyUnregister
  | Call.wakeUnlock => some Step.wakeRelease
  | _ => none

/-- The sequence of lifecycle steps a call trace performs. -/
def stepsOf (trace : List Call) : List Step :=
  trace.filterMap stepOf

/-- Resource/observer setup steps of the startup sequence. -/
def isResourceStep : Step → Bool
  | Step.wakeAcquire => true
  | Step.pmRegister => true
  | Step.earlyRegister => true
  | _ => false

/-- Periodic-activity arming steps of the startup sequence. -/
def isArmStep : Step → Bool
  | Step.armWork => true
  | Step.armTimer => true
  | Step.armAlarm => true
  | _ => false

/-- Periodic-activity cancel steps of the shutdown sequence. -/
def isCancelStep : Step → Bool
  | Step.stopAlarm => true
  | Step.stopTimer => true
  | Step.stopWork => true
  | _ => false

/-- Resource/observer release steps of the shutdown sequence. -/
def isReleaseStep : Step → Bool
  | Step.pmUnregister => true
  | Step.earlyUnregister => true
  | Step.wakeRelease => true
  | _ => false

/-- The startup step order claimed by the spec: wake lock, pm notifier,
early suspend, then the activities in the order Timer, DeferredWork, Alarm.
This definition follows the spec text, to be compared with the source. -/
def my_init_claimed_steps : List Step :=
  [Step.wakeAcquire, Step.pmRegister, Step.earlyRegister,
   Step.armTimer, Step.armWork, Step.armAlarm]

/-- The shutdown step order claimed by the spec: Alarm stop, DeferredWork
stop, Timer stop, early-suspend unregister, pm-notifier unregister, wake
lock release.  This definition follows the spec text, to be compared with
the source. -/
def my_exit_claimed_steps : List Step :=
  [Step.stopAlarm, Step.stopWork, Step.stopTimer,
   Step.earlyUnregister, Step.pmUnregister, Step.wakeRelease]

/-- The scheduling state of one periodic activity as seen by its host
facility: `armed` = a future firing is scheduled; `stopped` = the
synchronous cancel of the module's stop function has completed.  Firings
are modelled as atomic (the spec's no-overlap property P1), so a separate
"running" flag is not needed. -/
structure ActState where
  armed : Bool
  stopped : Bool
deriving DecidableEq, Repr

/-- Modelled from the spec: the effect of each host call on one activity's
scheduling state.  The bodies of `cancel_delayed_work_sync`,
`del_timer_sync` and `alarm_cancel` are outside this repository; spec
section 6 and the glossary give them synchronous-cancel semantics (after
the call returns, no firing is in flight and no future firing remains
scheduled), and spec section 4.1 makes a (re)arm attempt after shutdown has
begun a no-op. -/
def hostEffect (c : Call) (s : ActState) : ActState :=
  match c with
  | Call.cancelDelayedWorkSync => { armed := false, stopped := true }
  | Call.delTimerSync => { armed := false, stopped := true }
  | Call.alarmCancel => { armed := false, stopped := true }
  | Call.scheduleDelayedWork _ => if s.stopped then s else { s with armed := true }
  | Call.modTimer _ => if s.stopped then s else { s with armed := true }
  | Call.alarmStartRange _ => if s.stopped then s else { s with armed := true }
  | _ => s

/-- Run a call trace over an activity's scheduling state. -/
def runCalls (cs : List Call) (s : ActState) : ActState :=
  cs.foldl (fun a c => hostEffect c a) s

/-- The host fires activity `k` at second `sec` if a firing is scheduled:
the scheduled firing is consumed and the handler's calls run.  Returns the
new state and whether a firing actually executed. -/
def fireOnce (k : ActivityKind) (sec : Nat) (s : ActState) : ActState × Bool :=
  if s.armed then
    (runCalls (handlerTrace k sec) { armed := false, stopped := s.stopped }, true)
  else
    (s, false)

/-- Run a sequence of host firing attempts for activity `k`, counting how
many firings actually executed. -/
def fireMany (k : ActivityKind) (secs : List Nat) (s : ActState) : ActState × Nat :=
  match secs with
  | [] => (s, 0)
  | sec :: rest =>
    let p := fireOnce k sec s
    let q := fireMany k rest p.1
    (q.1, (if p.2 then 1 else 0) + q.2)

/-- The calls performed by an arbitrary interleaving of handler firings
(each list entry is one firing: which activity, at which second). -/
def firesTrace : List (ActivityKind × Nat) → List Call
  | [] => []
  | (k, sec) :: rest => handlerTrace k sec ++ firesTrace rest

/-- The full call trace of one module lifecycle: load (`my_init`), an
arbitrary interleaving of handler firings, then unload (`my_exit`). -/
def lifecycleTrace (env : HostEnv) (fires : List (ActivityKind × Nat)) : List Call :=
  (my_init env).2 ++ firesTrace fires ++ my_exit

/-- The `__func__` tag each handler logs. -/
def handlerTag : ActivityKind → String
  | ActivityKind.timer => "my_timer_handler"
  | ActivityKind.deferredWork => "my_delayed_work_handler"
  | ActivityKind.alarm => "my_alarm_handler"

/-- The re-arming call each handler issues after its action. -/
def rearmCall : ActivityKind → Call
  | ActivityKind.timer => Call.modTimer TIMER_PERIOD_MS
  | ActivityKind.deferredWork => Call.scheduleDelayedWork WORK_PERIOD_MS
  | ActivityKind.alarm => Call.alarmStartRange (ALARM_PERIOD_MS * NSEC_PER_MSEC)

/-! Helper lemmas shared by the claim theorems. -/

/-- Each activity's stop function drives its scheduling state to
unarmed-and-stopped, whatever the prior state. -/
theorem stopTrace_run (k : ActivityKind) (s : ActState) :
    runCalls (stopTrace k) s = { armed := false, stopped := true } := by
  cases k <;> rfl

/-- From the unarmed-and-stopped state, host firing attempts execute no
firing and leave the state unchanged. -/
theorem fireMany_stopped (k : ActivityKind) (secs : List Nat) :
    fireMany k secs { armed := false, stopped := true } =
      ({ armed := false, stopped := true }, 0) := by
  induction secs with
  | nil => rfl
  | cons sec rest ih => simp [fireMany, fireOnce, ih]

/-- Handler firings never touch the wake lock. -/
theorem handlerTrace_no_wake (k : ActivityKind) (sec : Nat) :
    (handlerTrace k sec).filter isWakeCall = [] := by
  cases k <;> rfl

/-- No interleaving of handler firings touches the wake lock. -/
theorem firesTrace_no_wake (fires : List (ActivityKind × Nat)) :
    (firesTrace fires).filter isWakeCall = [] := by
  induction fires with
  | nil => rfl
  | cons p rest ih =>
    cases p with
    | mk k sec => simp [firesTrace, List.filter_append, handlerTrace_no_wake, ih]

/-- The wake-lock calls of the startup trace: init then acquire. -/
theorem init_wake_calls (env : HostEnv) :
    ((my_init env).2).filter isWakeCall =
      [Call.wakeLockInit "my_wake_lock", Call.wakeLock] := rfl

/-- The wake-lock calls of the teardown trace: release then destroy. -/
theorem exit_wake_calls :
    my_exit.filter isWakeCall = [Call.wakeUnlock, Call.wakeLockDestroy] := rfl

/-! Claim theorems. -/

/-- C1: once an activity's stop function (`my_timer_stop` /
`my_delayed_work_stop` / `my_alarm_stop`) has returned, its scheduling
state is unarmed (no future firing is scheduled), and any sequence of
subsequent host firing attempts for that activity executes zero firings
and leaves it unarmed: stop is a synchronous cancel barrier, not
fire-and-forget. -/
theorem stop_is_synchronous_cancel_barrier (k : ActivityKind) (s : ActState)
    (secs : List Nat) :
    (runCalls (stopTrace k) s).armed = false ∧
    (runCalls (stopTrace k) s).stopped = true ∧
    (fireMany k secs (runCalls (stopTrace k) s)).2 = 0 ∧
    (fireMany k secs (runCalls (stopTrace k) s)).1.armed = false := by
  rw [stopTrace_run, fireMany_stopped]
  exact ⟨rfl, rfl, rfl, rfl⟩

/-- C2 counterexample: the teardown step order of `my_exit` is not the
order the claim states (Alarm, DeferredWork, Timer, early-suspend
unregister, pm-notifier unregister, wake-lock release). -/
theorem my_exit_order_differs_from_claim :
    stepsOf my_exit ≠ my_exit_claimed_steps := by decide

/-- C2 (amended): `my_exit` executes its six teardown steps in the order
Alarm stop, Timer stop, DeferredWork stop, pm-notifier unregister,
early-suspend unregister, wake-lock release; the three activity stops
reverse the startup arming order, but the two observer unregisters run in
registration order, not reversed. -/
theorem my_exit_step_order :
    stepsOf my_exit =
      [Step.stopAlarm, Step.stopTimer, Step.stopWork,
       Step.pmUnregister, Step.earlyUnregister, Step.wakeRelease] := rfl

/-- C3 counterexample: the startup step order of `my_init` is not the
order the claim states (wake lock, pm notifier, early suspend, Timer,
DeferredWork, Alarm). -/
theorem my_init_order_differs_from_claim :
    stepsOf (my_init (HostEnv.mk 0)).2 ≠ my_init_claimed_steps := by decide

/-- C3 (amended): `my_init` executes its six startup steps in the order
wake-lock acquire, pm-notifier register, early-suspend register, then the
activities DeferredWork, Timer, Alarm. -/
theorem my_init_step_order (env : HostEnv) :
    stepsOf (my_init env).2 =
      [Step.wakeAcquire, Step.pmRegister, Step.earlyRegister,
       Step.armWork, Step.armTimer, Step.armAlarm] := rfl

/-- C4: in the startup trace every resource/observer step precedes every
periodic-activity arming step, and in the shutdown trace every
periodic-activity cancel step precedes every resource/observer release
step: each trace splits into a prefix wholly of the first class and a
suffix wholly of the second. -/
theorem startup_arms_last_shutdown_cancels_first (env : HostEnv) :
    (∃ rs as, stepsOf (my_init env).2 = rs ++ as ∧
       rs.all isResourceStep = true ∧ as.all isArmStep = true) ∧
    (∃ cs ds, stepsOf my_exit = cs ++ ds ∧
       cs.all isCancelStep = true ∧ ds.all isReleaseStep = true) :=
  ⟨⟨[Step.wakeAcquire, Step.pmRegister, Step.earlyRegister],
    [Step.armWork, Step.armTimer, Step.armAlarm], rfl, rfl, rfl⟩,
   ⟨[Step.stopAlarm, Step.stopTimer, Step.stopWork],
    [Step.pmUnregister, Step.earlyUnregister, Step.wakeRelease], rfl, rfl, rfl⟩⟩

/-- C5 counterexample: with a failing pm-notifier registration (host
returns errno -12, ENOMEM), `my_init` still returns 0 (success) and still
performs all six startup steps, so the failure is neither reported nor
does it abort startup. -/
theorem my_init_ignores_registration_failure :
    (HostEnv.mk (-12)).pm_register_ret ≠ 0 ∧
    (my_init (HostEnv.mk (-12))).1 = 0 ∧
    stepsOf (my_init (HostEnv.mk (-12))).2 =
      [Step.wakeAcquire, Step.pmRegister, Step.earlyRegister,
       Step.armWork, Step.armTimer, Step.armAlarm] :=
  ⟨by decide, rfl, rfl⟩

/-- C5 (amended): `my_init` returns 0 unconditionally and executes all six
startup steps regardless of any host registration failure; no failure is
propagated as the module load result and no earlier step is unwound. -/
theorem my_init_returns_zero_unconditionally (env : HostEnv) :
    (my_init env).1 = 0 ∧
    stepsOf (my_init env).2 =
      [Step.wakeAcquire, Step.pmRegister, Step.earlyRegister,
       Step.armWork, Step.armTimer, Step.armAlarm] :=
  ⟨rfl, rfl⟩

/-- C6: `my_pm_handler` logs one "suspend" line and returns `NOTIFY_OK`
for the PrepareSleep class, logs one "resume" line and returns `NOTIFY_OK`
for the PostWake class, and for every other action value logs nothing and
returns `NOTIFY_DONE`; it never returns the error acknowledgement
`NOTIFY_BAD`. -/
theorem my_pm_handler_event_classes (nfb a data : Nat) :
    ((a = PM_SUSPEND_PREPARE ∨ a = PM_HIBERNATION_PREPARE) →
       my_pm_handler nfb a data = (NOTIFY_OK, [Call.printk "my_pm_handler: suspend"])) ∧
    ((a = PM_POST_SUSPEND ∨ a = PM_POST_HIBERNATION) →
       my_pm_handler nfb a data = (NOTIFY_OK, [Call.printk "my_pm_handler: resume"])) ∧
    (¬(a = PM_SUSPEND_PREPARE ∨ a = PM_HIBERNATION_PREPARE) →
     ¬(a = PM_POST_SUSPEND ∨ a = PM_POST_HIBERNATION) →
       my_pm_handler nfb a data = (NOTIFY_DONE, [])) ∧
    (my_pm_handler nfb a data).1 ≠ NOTIFY_BAD := by
  refine ⟨?_, ?_, ?_, ?_⟩
  · rintro (rfl | rfl) <;> rfl
  · rintro (rfl | rfl) <;> rfl
  · intro h1 h2
    have hh1 : ¬(a = PM_HIBERNATION_PREPARE ∨ a = PM_SUSPEND_PREPARE) :=
      fun h => h.elim (fun q => h1 (Or.inr q)) (fun q => h1 (Or.inl q))
    have hh2 : ¬(a = PM_POST_HIBERNATION ∨ a = PM_POST_SUSPEND) :=
      fun h => h.elim (fun q => h2 (Or.inr q)) (fun q => h2 (Or.inl q))
    simp [my_pm_handler, hh1, hh2]
  · unfold my_pm_handler
    split
    · decide
    · split
      · decide
      · decide

/-- C6 witness: concrete events of each class. -/
theorem my_pm_handler_event_classes_witness :
    my_pm_handler 0 PM_SUSPEND_PREPARE 0 =
      (NOTIFY_OK, [Call.printk "my_pm_handler: suspend"]) ∧
    my_pm_handler 0 PM_POST_SUSPEND 0 =
      (NOTIFY_OK, [Call.printk "my_pm_handler: resume"]) ∧
    my_pm_handler 0 99 0 = (NOTIFY_DONE, []) :=
  ⟨(my_pm_handler_event_classes 0 PM_SUSPEND_PREPARE 0).1 (Or.inl rfl),
   (my_pm_handler_event_classes 0 PM_POST_SUSPEND 0).2.1 (Or.inl rfl),
   (my_pm_handler_event_classes 0 99 0).2.2.1 (by decide) (by decide)⟩

/-- C7: each handler first logs its identifying name with the current
wall-clock second, then issues exactly one re-arm at its own period; and
when a stop has already completed, the re-arm attempt is a no-op on the
scheduling state. -/
theorem handler_logs_then_rearms (k : ActivityKind) (sec : Nat) :
    handlerTrace k sec = [Call.printkTs (handlerTag k) sec, rearmCall k] ∧
    isArmCall (rearmCall k) = true ∧
    armDelayMs (rearmCall k) = some (periodMs k) ∧
    ∀ s : ActState, s.stopped = true → runCalls (handlerTrace k sec) s = s := by
  cases k <;>
    refine ⟨rfl, rfl, rfl, ?_⟩ <;>
    · intro s hs
      cases s with
      | mk armed stopped =>
        simp only at hs
        subst hs
        rfl

/-- C7 witness: the timer handler at second 5, on a stopped state. -/
theorem handler_logs_then_rearms_witness :
    runCalls (handlerTrace ActivityKind.timer 5) { armed := false, stopped := true } =
      { armed := false, stopped := true } :=
  (handler_logs_then_rearms ActivityKind.timer 5).2.2.2
    { armed := false, stopped := true } rfl

/-- C8: the periods are the fixed constants 1000 ms (timer), 1000 ms
(deferred work) and 10000 ms (alarm), and every arming call in each
activity's start function and firing handler uses exactly that instance's
period as its delay. -/
theorem periods_are_fixed_constants :
    TIMER_PERIOD_MS = 1000 ∧ WORK_PERIOD_MS = 1000 ∧ ALARM_PERIOD_MS = 10000 ∧
    ∀ (k : ActivityKind) (sec : Nat),
      ((startTrace k ++ handlerTrace k sec).filter isArmCall).all
        (fun c => armDelayMs c == some (periodMs k)) = true := by
  refine ⟨rfl, rfl, rfl, ?_⟩
  intro k sec
  cases k <;> rfl

/-- C9: across one full module lifecycle (load, any interleaving of
handler firings, unload) the wake-lock operations are exactly init,
acquire, release, destroy, in that order: acquire and release happen once
each, never two acquires without an intervening release, and destruction
only after release. -/
theorem wake_lock_acquire_release_paired (env : HostEnv)
    (fires : List (ActivityKind × Nat)) :
    (lifecycleTrace env fires).filter isWakeCall =
      [Call.wakeLockInit "my_wake_lock", Call.wakeLock,
       Call.wakeUnlock, Call.wakeLockDestroy] := by
  simp [lifecycleTrace, List.filter_append, firesTrace_no_wake,
        init_wake_calls, exit_wake_calls]

/-- C10: the acknowledgement and log output of `my_pm_handler` depend only
on the event action code; the notifier-block and data arguments are never
read. -/
theorem my_pm_handler_depends_only_on_action (nfb1 nfb2 a data1 data2 : Nat) :
    my_pm_handler nfb1 a data1 = my_pm_handler nfb2 a data2 := rfl

end Mysuspend
